import Mathlib

/-!
Verification development for the `neomodel_bfo` repository: a declarative
BFO 2.0 class taxonomy (`src/neomodel_bfo/bfo.py`) plus the biology domain
extension (`src/examples/biology_example.py`).  The schema is shallowly
embedded: every class becomes a constructor of `TypeName`; its declared
superclass, `__abstract_node__` flag, scalar properties and relationship
declarations are transcribed into total functions on `TypeName`.  A small
instance-graph semantics (`BfoGraph`, `traverse`, `conforms`) models how
typed nodes and labelled edges are checked against the declared schema, and
a module evaluator (`runModule`) models Python's top-to-bottom evaluation
of the biology example module's global statements.
-/

namespace NeomodelBfo

/-- Every class declared in `src/neomodel_bfo/bfo.py` together with the
domain classes declared in `src/examples/biology_example.py`. -/
inductive TypeName where
  | Entity
  | Continuant
  | IndependentContinuant
  | MaterialEntity
  | Object
  | FiatObjectPart
  | ObjectAggregate
  | ImmaterialEntity
  | Site
  | ContinuantFiatBoundary
  | ZeroDimensionalContinuantFiatBoundary
  | OneDimensionalContinuantFiatBoundary
  | TwoDimensionalContinuantFiatBoundary
  | SpatialRegion
  | ZeroDimensionalSpatialRegion
  | OneDimensionalSpatialRegion
  | TwoDimensionalSpatialRegion
  | ThreeDimensionalSpatialRegion
  | GenericallyDependentContinuant
  | SpecificallyDependentContinuant
  | Quality
  | RelationalQuality
  | RealizableEntity
  | Role
  | Disposition
  | Function
  | Occurrent
  | Process
  | History
  | ProcessProfile
  | ProcessBoundary
  | TemporalRegion
  | ZeroDimensionalTemporalRegion
  | OneDimensionalTemporalRegion
  | SpatioTemporalRegion
  | Organism
  | AnatomicalStructure
  | Cell
  | BodyTemperature
  | BodyMass
  | BiologicalFunction
  | HeartPumpingFunction
  | BiologicalProcess
  | CellDivision
  | Growth
  | Predator
  | Prey
  deriving DecidableEq, Fintype, Repr

/-- The declared (single) superclass of each class.  `Entity` extends the
external mapper's `StructuredNode`, which lies outside the hierarchy, so its
parent is `none`. -/
def parent : TypeName → Option TypeName
  | .Entity => none
  | .Continuant => some .Entity
  | .IndependentContinuant => some .Continuant
  | .MaterialEntity => some .IndependentContinuant
  | .Object => some .MaterialEntity
  | .FiatObjectPart => some .MaterialEntity
  | .ObjectAggregate => some .MaterialEntity
  | .ImmaterialEntity => some .IndependentContinuant
  | .Site => some .ImmaterialEntity
  | .ContinuantFiatBoundary => some .ImmaterialEntity
  | .ZeroDimensionalContinuantFiatBoundary => some .ContinuantFiatBoundary
  | .OneDimensionalContinuantFiatBoundary => some .ContinuantFiatBoundary
  | .TwoDimensionalContinuantFiatBoundary => some .ContinuantFiatBoundary
  | .SpatialRegion => some .ImmaterialEntity
  | .ZeroDimensionalSpatialRegion => some .SpatialRegion
  | .OneDimensionalSpatialRegion => some .SpatialRegion
  | .TwoDimensionalSpatialRegion => some .SpatialRegion
  | .ThreeDimensionalSpatialRegion => some .SpatialRegion
  | .GenericallyDependentContinuant => some .Continuant
  | .SpecificallyDependentContinuant => some .Continuant
  | .Quality => some .SpecificallyDependentContinuant
  | .RelationalQuality => some .Quality
  | .RealizableEntity => some .SpecificallyDependentContinuant
  | .Role => some .RealizableEntity
  | .Disposition => some .RealizableEntity
  | .Function => some .Disposition
  | .Occurrent => some .Entity
  | .Process => some .Occurrent
  | .History => some .Process
  | .ProcessProfile => some .Process
  | .ProcessBoundary => some .Occurrent
  | .TemporalRegion => some .Occurrent
  | .ZeroDimensionalTemporalRegion => some .TemporalRegion
  | .OneDimensionalTemporalRegion => some .TemporalRegion
  | .SpatioTemporalRegion => some .Occurrent
  | .Organism => some .Object
  | .AnatomicalStructure => some .FiatObjectPart
  | .Cell => some .Object
  | .BodyTemperature => some .Quality
  | .BodyMass => some .Quality
  | .BiologicalFunction => some .Function
  | .HeartPumpingFunction => some .BiologicalFunction
  | .BiologicalProcess => some .Process
  | .CellDivision => some .BiologicalProcess
  | .Growth => some .BiologicalProcess
  | .Predator => some .Role
  | .Prey => some .Role

/-- Whether the class body sets `__abstract_node__ = True`. -/
def isAbstract : TypeName → Bool
  | .Entity => true
  | .Continuant => true
  | .IndependentContinuant => true
  | .MaterialEntity => true
  | .ImmaterialEntity => true
  | .ContinuantFiatBoundary => true
  | .SpatialRegion => true
  | .SpecificallyDependentContinuant => true
  | .Quality => true
  | .RealizableEntity => true
  | .Occurrent => true
  | .Process => true
  | .TemporalRegion => true
  | _ => false

/-- Scalar property kinds used by the schema (the neomodel property classes
appearing in the source). -/
inductive PropKind where
  | uniqueId
  | string
  | integer
  | float
  | dateTime
  | json
  deriving DecidableEq, Repr

/-- A declared scalar property: field name, kind, and required flag. -/
structure PropDecl where
  name : String
  kind : PropKind
  required : Bool
  deriving DecidableEq, Repr

/-- Direction of a relationship declaration: `RelationshipTo` is outgoing,
`RelationshipFrom` is incoming. -/
inductive Direction where
  | outgoing
  | incoming
  deriving DecidableEq, Repr

/-- Relationship cardinality constraints of the underlying mapper.  The
source imports `ZeroOrMore` and `ZeroOrOne` and uses `ZeroOrMore` in every
declaration; `one` and `oneOrMore` are included because the spec's
cardinality vocabulary mentions exactly-one. -/
inductive Cardinality where
  | zeroOrMore
  | zeroOrOne
  | oneOrMore
  | one
  deriving DecidableEq, Repr

/-- A declared relationship: attribute name, direction, target class, edge
label, cardinality. -/
structure RelDecl where
  name : String
  direction : Direction
  target : TypeName
  label : String
  cardinality : Cardinality
  deriving DecidableEq, Repr

/-- The scalar properties declared directly in each class body. -/
def declaredProps : TypeName → List PropDecl
  | .Entity =>
      [⟨"uid", .uniqueId, false⟩, ⟨"name", .string, false⟩,
       ⟨"description", .string, false⟩, ⟨"created_at", .dateTime, false⟩,
       ⟨"modified_at", .dateTime, false⟩]
  | .MaterialEntity => [⟨"mass_kg", .float, false⟩]
  | .SpatialRegion =>
      [⟨"coordinates", .json, false⟩, ⟨"coordinate_system", .string, false⟩]
  | .Quality => [⟨"value", .string, false⟩, ⟨"unit", .string, false⟩]
  | .Occurrent =>
      [⟨"start_time", .dateTime, false⟩, ⟨"end_time", .dateTime, false⟩]
  | .TemporalRegion =>
      [⟨"temporal_start", .dateTime, false⟩, ⟨"temporal_end", .dateTime, false⟩]
  | .SpatioTemporalRegion =>
      [⟨"spatial_extent", .json, false⟩, ⟨"temporal_extent", .string, false⟩]
  | .Organism =>
      [⟨"species", .string, true⟩, ⟨"age_years", .integer, false⟩]
  | .AnatomicalStructure => [⟨"anatomical_type", .string, false⟩]
  | .Cell => [⟨"cell_type", .string, false⟩]
  | .BiologicalFunction => [⟨"function_category", .string, false⟩]
  | .BiologicalProcess => [⟨"process_type", .string, false⟩]
  | .CellDivision => [⟨"division_type", .string, false⟩]
  | .Growth => [⟨"growth_rate_mm_per_day", .float, false⟩]
  | _ => []

/-- The relationships declared directly in each class body, transcribed in
source order with their directions, targets, edge labels and cardinalities. -/
def declaredRels : TypeName → List RelDecl
  | .Continuant =>
      [⟨"exists_at", .outgoing, .TemporalRegion, "EXISTS_AT", .zeroOrMore⟩,
       ⟨"part_of", .outgoing, .Continuant, "PART_OF", .zeroOrMore⟩,
       ⟨"has_part", .incoming, .Continuant, "PART_OF", .zeroOrMore⟩,
       ⟨"located_in", .outgoing, .Continuant, "LOCATED_IN", .zeroOrMore⟩,
       ⟨"occupies_spatial_region", .outgoing, .SpatialRegion,
        "OCCUPIES_SPATIAL_REGION", .zeroOrMore⟩]
  | .IndependentContinuant =>
      [⟨"bearer_of", .incoming, .SpecificallyDependentContinuant,
        "INHERES_IN", .zeroOrMore⟩,
       ⟨"participates_in", .outgoing, .Process, "PARTICIPATES_IN", .zeroOrMore⟩]
  | .SpatialRegion =>
      [⟨"spatially_contains", .outgoing, .SpatialRegion,
        "SPATIALLY_CONTAINS", .zeroOrMore⟩,
       ⟨"spatially_contained_in", .incoming, .SpatialRegion,
        "SPATIALLY_CONTAINS", .zeroOrMore⟩]
  | .SpecificallyDependentContinuant =>
      [⟨"inheres_in", .outgoing, .IndependentContinuant,
        "INHERES_IN", .zeroOrMore⟩]
  | .RealizableEntity =>
      [⟨"realized_by", .incoming, .Process, "REALIZES", .zeroOrMore⟩]
  | .Occurrent =>
      [⟨"occurs_in", .outgoing, .TemporalRegion, "OCCURS_IN", .zeroOrMore⟩,
       ⟨"part_of", .outgoing, .Occurrent, "PART_OF", .zeroOrMore⟩,
       ⟨"has_part", .incoming, .Occurrent, "PART_OF", .zeroOrMore⟩]
  | .Process =>
      [⟨"has_participant", .incoming, .IndependentContinuant,
        "PARTICIPATES_IN", .zeroOrMore⟩,
       ⟨"realizes", .outgoing, .RealizableEntity, "REALIZES", .zeroOrMore⟩,
       ⟨"has_process_boundary", .outgoing, .ProcessBoundary,
        "HAS_PROCESS_BOUNDARY", .zeroOrMore⟩,
       ⟨"preceded_by", .incoming, .Process, "PRECEDES", .zeroOrMore⟩,
       ⟨"precedes", .outgoing, .Process, "PRECEDES", .zeroOrMore⟩]
  | .TemporalRegion =>
      [⟨"temporally_contains", .outgoing, .TemporalRegion,
        "TEMPORALLY_CONTAINS", .zeroOrMore⟩,
       ⟨"temporally_contained_in", .incoming, .TemporalRegion,
        "TEMPORALLY_CONTAINS", .zeroOrMore⟩]
  | .Organism =>
      [⟨"offspring_of", .outgoing, .Organism, "OFFSPRING_OF", .zeroOrMore⟩,
       ⟨"has_offspring", .incoming, .Organism, "OFFSPRING_OF", .zeroOrMore⟩]
  | _ => []

/-- Ancestor chain computed by following `parent` with explicit fuel; the
hierarchy has depth at most seven, so fuel 15 is ample. -/
def chainAux : Nat → TypeName → List TypeName
  | 0, _ => []
  | fuel + 1, t =>
      t :: (match parent t with
            | none => []
            | some p => chainAux fuel p)

/-- The ancestor chain of a class, the class itself included, ending at the
root `Entity`. -/
def ancestors (t : TypeName) : List TypeName :=
  chainAux 15 t

/-- The strict (proper) ancestors of a class. -/
def strictAncestors (t : TypeName) : List TypeName :=
  (ancestors t).drop 1

/-- Reflexive descendant test: `u` is `v` or lies below `v` in the tree. -/
def isDescendantOf (u v : TypeName) : Bool :=
  (ancestors u).contains v

/-- Effective relationships of a class: its own declarations followed by
the declarations inherited from each ancestor. -/
def effRels (t : TypeName) : List RelDecl :=
  (ancestors t).flatMap declaredRels

/-- Effective property declarations of a class. -/
def effProps (t : TypeName) : List PropDecl :=
  (ancestors t).flatMap declaredProps

/-- Effective property names of a class. -/
def effPropNames (t : TypeName) : List String :=
  (effProps t).map (·.name)

/-- Effective relationship names of a class. -/
def effRelNames (t : TypeName) : List String :=
  (effRels t).map (·.name)

/-- The relationship declarations with a given attribute name in a given
class body. -/
def relNamed (t : TypeName) (n : String) : List RelDecl :=
  (declaredRels t).filter (fun r => r.name == n)

/-!
Instance-graph semantics.  Instances live in the external graph database;
an instance graph is a list of typed nodes and labelled directed edges.
Traversing a relationship attribute from a node follows the edges carrying
the declared edge label in the declared direction, as the mapper's
relationship managers do.
-/

/-- A typed instance node. -/
structure GNode where
  id : Nat
  typ : TypeName
  deriving DecidableEq, Repr

/-- A labelled directed edge between two instances. -/
structure Edge where
  src : Nat
  label : String
  dst : Nat
  deriving DecidableEq, Repr

/-- An instance graph. -/
structure BfoGraph where
  nodes : List GNode
  edges : List Edge
  deriving DecidableEq, Repr

/-- The declared type of a node id, if the node exists. -/
def typeOf (g : BfoGraph) (i : Nat) : Option TypeName :=
  ((g.nodes.filter (fun n => n.id == i)).map (·.typ)).head?

/-- Traversing a relationship attribute from node `i`: the related node ids
reached by following edges with the declared label in the declared
direction. -/
def traverse (g : BfoGraph) (i : Nat) (r : RelDecl) : List Nat :=
  match r.direction with
  | .outgoing => (g.edges.filter (fun e => e.src == i && e.label == r.label)).map (·.dst)
  | .incoming => (g.edges.filter (fun e => e.dst == i && e.label == r.label)).map (·.src)

/-- Whether a cardinality constraint allows `n` related instances. -/
def cardAllows : Cardinality → Nat → Bool
  | .zeroOrMore, _ => true
  | .zeroOrOne, n => n ≤ 1
  | .oneOrMore, n => 1 ≤ n
  | .one, n => n == 1

/-- Whether a related node id has a type accepted by the declaration: the
declared target class or any of its descendants. -/
def targetOk (g : BfoGraph) (r : RelDecl) (j : Nat) : Bool :=
  match typeOf g j with
  | some u => isDescendantOf u r.target
  | none => false

/-- Whether an instance graph conforms to the declared schema: every node
has a concrete (non-abstract) type, and for every effective relationship of
its type, the traversal satisfies the declared cardinality and every
related node has an accepted target type. -/
def conforms (g : BfoGraph) : Bool :=
  g.nodes.all fun n =>
    !(isAbstract n.typ) &&
    (effRels n.typ).all fun r =>
      let js := traverse g n.id r
      cardAllows r.cardinality js.length && js.all (targetOk g r)

/-!
Instantiation boundary.  The registry only marks `__abstract_node__`;
rejection of direct instantiation happens at the schema-consumer boundary
by checking the flag, which is how the spec describes the failure
semantics.  `instantiate` models that boundary check.
-/

/-- Structural usage errors at the consumer boundary. -/
inductive UsageError where
  | abstractInstantiation (t : TypeName)
  deriving DecidableEq, Repr

/-- Instantiating a type at the consumer boundary: rejected with an
abstract-instantiation error exactly when the type is marked abstract. -/
def instantiate (t : TypeName) : Except UsageError TypeName :=
  if isAbstract t then .error (.abstractInstantiation t) else .ok t

/-!
Python module evaluation for `src/examples/biology_example.py`.  A module
is a list of top-level statements executed in order; each statement binds
one global name after evaluating its body, which reads a set of global
names.  Evaluation stops with a NameError at the first read of an unbound
name.  Names read only inside function bodies are resolved at call time,
not at definition time, so they are not module-evaluation reads.
-/

/-- A top-level module statement: the global name it binds and the global
names its evaluation reads, in source order. -/
structure PyStmt where
  defines : String
  reads : List String
  deriving DecidableEq, Repr

/-- Outcome of evaluating a module. -/
inductive ModuleResult where
  | ok (env : List String)
  | nameError (missing : String)
  deriving DecidableEq, Repr

/-- Evaluate the statements in order, starting from the imported names. -/
def runStmts (env : List String) : List PyStmt → ModuleResult
  | [] => .ok env
  | s :: rest =>
      match s.reads.find? (fun r => !(env.contains r)) with
      | some m => .nameError m
      | none => runStmts (s.defines :: env) rest

/-- The names bound by the import statements of
`src/examples/biology_example.py`: line 14 imports exactly
StringProperty, IntegerProperty, FloatProperty and RelationshipTo from
neomodel, and lines 15 to 22 import the six BFO classes. -/
def biologyImports : List String :=
  ["StringProperty", "IntegerProperty", "FloatProperty", "RelationshipTo",
   "Object", "FiatObjectPart", "Quality", "Function", "Process", "Role"]

/-- The top-level statements of `src/examples/biology_example.py` after the
imports, with the global names each class body (base classes included)
reads during evaluation, in source order. -/
def biologyStmts : List PyStmt :=
  [⟨"Organism",
    ["Object", "StringProperty", "IntegerProperty", "RelationshipTo",
     "RelationshipFrom"]⟩,
   ⟨"AnatomicalStructure", ["FiatObjectPart", "StringProperty"]⟩,
   ⟨"Cell", ["Object", "StringProperty"]⟩,
   ⟨"BodyTemperature", ["Quality"]⟩,
   ⟨"BodyMass", ["Quality"]⟩,
   ⟨"BiologicalFunction", ["Function", "StringProperty"]⟩,
   ⟨"HeartPumpingFunction", ["BiologicalFunction"]⟩,
   ⟨"BiologicalProcess", ["Process", "StringProperty"]⟩,
   ⟨"CellDivision", ["BiologicalProcess", "StringProperty"]⟩,
   ⟨"Growth", ["BiologicalProcess", "FloatProperty"]⟩,
   ⟨"Predator", ["Role"]⟩,
   ⟨"Prey", ["Role"]⟩,
   ⟨"example_usage", []⟩]

/-- Evaluating the biology example module. -/
def runBiologyModule : ModuleResult :=
  runStmts biologyImports biologyStmts

/-!
Definition-time schema checking.  The repository delegates class creation
to the external mapper and never exercises a duplicate-name redefinition,
so the definition-time check itself is not implemented under src; it is
modelled from the spec below.
-/

/-- Definition-time schema errors. -/
inductive SchemaError where
  | schemaDefinition (dup : String)
  deriving DecidableEq, Repr

/-- Whether the first cardinality strictly narrows the second: the set of
allowed edge counts of the first is a strict subset of that of the second
(zero-or-more allows any count, zero-or-one allows at most one, one-or-more
allows at least one, exactly-one allows exactly one). -/
def strictlyNarrows : Cardinality → Cardinality → Bool
  | .zeroOrOne, .zeroOrMore => true
  | .oneOrMore, .zeroOrMore => true
  | .one, .zeroOrMore => true
  | .one, .zeroOrOne => true
  | .one, .oneOrMore => true
  | _, _ => false

/-- All names (properties and relationships) of an inherited schema. -/
def inheritedNames (inhP : List PropDecl) (inhR : List RelDecl) : List String :=
  inhP.map (·.name) ++ inhR.map (·.name)

/-- Whether a redeclaring relationship keeps the inherited declaration's
direction, target and edge label. -/
def shapeOk (nr o : RelDecl) : Bool :=
  nr.direction == o.direction && nr.target == o.target && nr.label == o.label

/-- Modelled from the spec: the duplicate check for newly declared scalar
properties — a new property whose name is already an inherited property or
relationship name is a definition-time error.  The enforcing code is not in
src (type creation is delegated to the external mapper). -/
def checkProps (names : List String) : List PropDecl → Except SchemaError Unit
  | [] => .ok ()
  | p :: rest =>
      if names.contains p.name then .error (.schemaDefinition p.name)
      else checkProps names rest

/-- Modelled from the spec: the duplicate check for newly declared
relationships — reusing an inherited relationship name is a definition-time
error unless the new declaration keeps the inherited shape and strictly
narrows its cardinality.  The enforcing code is not in src. -/
def checkRels (inhP : List PropDecl) (inhR : List RelDecl) :
    List RelDecl → Except SchemaError Unit
  | [] => .ok ()
  | r :: rest =>
      match inhR.find? (fun o => o.name == r.name) with
      | some o =>
          if shapeOk r o && strictlyNarrows r.cardinality o.cardinality then
            checkRels inhP inhR rest
          else .error (.schemaDefinition r.name)
      | none =>
          if (inhP.map (·.name)).contains r.name then
            .error (.schemaDefinition r.name)
          else checkRels inhP inhR rest

/-- Modelled from the spec: the define-type operation of section 4.1 — a
type defined with parent `P` inherits the effective schema of `P`, and the
new declarations are checked synchronously against the inherited names,
returning either the merged effective schema or a `SchemaDefinitionError`.
The enforcing code is not in src. -/
def defineType (inhP : List PropDecl) (inhR : List RelDecl)
    (newP : List PropDecl) (newR : List RelDecl) :
    Except SchemaError (List PropDecl × List RelDecl) :=
  match checkProps (inheritedNames inhP inhR) newP with
  | .error e => .error e
  | .ok () =>
      match checkRels inhP inhR newR with
      | .error e => .error e
      | .ok () =>
          .ok (inhP ++ newP,
               newR ++ inhR.filter (fun o => !(newR.any (fun r => r.name == o.name))))

/-!
Concrete declarations and instance graphs used in the theorems below.
-/

/-- The `inheres_in` declaration of `SpecificallyDependentContinuant` as it
stands in the source. -/
def inheresInDecl : RelDecl :=
  ⟨"inheres_in", .outgoing, .IndependentContinuant, "INHERES_IN", .zeroOrMore⟩

/-- The `part_of` declaration of `Continuant`. -/
def partOfDecl : RelDecl :=
  ⟨"part_of", .outgoing, .Continuant, "PART_OF", .zeroOrMore⟩

/-- The `has_part` declaration of `Continuant`. -/
def hasPartDecl : RelDecl :=
  ⟨"has_part", .incoming, .Continuant, "PART_OF", .zeroOrMore⟩

/-- The `bearer_of` declaration of `IndependentContinuant`. -/
def bearerOfDecl : RelDecl :=
  ⟨"bearer_of", .incoming, .SpecificallyDependentContinuant, "INHERES_IN",
   .zeroOrMore⟩

/-- The `participates_in` declaration of `IndependentContinuant`. -/
def participatesInDecl : RelDecl :=
  ⟨"participates_in", .outgoing, .Process, "PARTICIPATES_IN", .zeroOrMore⟩

/-- The `precedes` declaration of `Process`. -/
def precedesDecl : RelDecl :=
  ⟨"precedes", .outgoing, .Process, "PRECEDES", .zeroOrMore⟩

/-- The `preceded_by` declaration of `Process`. -/
def precededByDecl : RelDecl :=
  ⟨"preceded_by", .incoming, .Process, "PRECEDES", .zeroOrMore⟩

/-- A conforming graph with one relational quality bearing no
`INHERES_IN` edge at all. -/
def gQualityZero : BfoGraph :=
  ⟨[⟨0, .RelationalQuality⟩], []⟩

/-- A conforming graph with one relational quality inhering in two
independent continuants. -/
def gQualityTwo : BfoGraph :=
  ⟨[⟨0, .RelationalQuality⟩, ⟨1, .Object⟩, ⟨2, .Object⟩],
   [⟨0, "INHERES_IN", 1⟩, ⟨0, "INHERES_IN", 2⟩]⟩

/-- A graph whose single process instance precedes itself. -/
def gPrecedesLoop : BfoGraph :=
  ⟨[⟨0, .History⟩], [⟨0, "PRECEDES", 0⟩]⟩

/-- A graph whose single object is part of itself. -/
def gPartOfLoop : BfoGraph :=
  ⟨[⟨0, .Object⟩], [⟨0, "PART_OF", 0⟩]⟩

/-- A graph containing a node typed with the abstract class `Quality`. -/
def gAbstractQuality : BfoGraph :=
  ⟨[⟨0, .Quality⟩], []⟩

/-- A graph containing a single body-temperature instance. -/
def gBodyTemp : BfoGraph :=
  ⟨[⟨0, .BodyTemperature⟩], []⟩

/-- A conforming graph exercising the relationships of an organism: part
of a second organism, participating in a biological process, and bearing a
body temperature. -/
def gOrganism : BfoGraph :=
  ⟨[⟨0, .Organism⟩, ⟨1, .Organism⟩, ⟨2, .BiologicalProcess⟩,
    ⟨3, .BodyTemperature⟩],
   [⟨0, "PART_OF", 1⟩, ⟨0, "PARTICIPATES_IN", 2⟩, ⟨3, "INHERES_IN", 0⟩]⟩

/-- A two-object graph with a single parthood edge, used to exhibit the
round trip of `part_of` and `has_part`. -/
def gPartPair : BfoGraph :=
  ⟨[⟨0, .Object⟩, ⟨1, .Object⟩], [⟨0, "PART_OF", 1⟩]⟩

/-- The inverse relationship pairs named by the spec, each given as the
owning class and attribute name of the forward and of the inverse arm. -/
def inversePairs : List ((TypeName × String) × (TypeName × String)) :=
  [((.Continuant, "part_of"), (.Continuant, "has_part")),
   ((.IndependentContinuant, "participates_in"), (.Process, "has_participant")),
   ((.Process, "realizes"), (.RealizableEntity, "realized_by")),
   ((.SpecificallyDependentContinuant, "inheres_in"),
    (.IndependentContinuant, "bearer_of")),
   ((.Process, "precedes"), (.Process, "preceded_by")),
   ((.SpatialRegion, "spatially_contains"),
    (.SpatialRegion, "spatially_contained_in")),
   ((.TemporalRegion, "temporally_contains"),
    (.TemporalRegion, "temporally_contained_in"))]

/-- The twelve classes the spec lists as abstract. -/
def specAbstractTwelve : List TypeName :=
  [.Continuant, .IndependentContinuant, .ImmaterialEntity, .MaterialEntity,
   .SpecificallyDependentContinuant, .RealizableEntity, .Occurrent,
   .Process, .Quality, .ContinuantFiatBoundary, .SpatialRegion,
   .TemporalRegion]

/-- The classes whose bodies actually set the abstract flag in the source:
the twelve of the spec plus the root `Entity`. -/
def sourceAbstractThirteen : List TypeName :=
  .Entity :: specAbstractTwelve

/-!
Theorems.
-/

/-- An edge carrying the label of an outgoing relationship declaration is
found when traversing that relationship from its source node. -/
lemma mem_traverse_of_edge_out (g : BfoGraph) (a b : Nat) (r : RelDecl)
    (hd : r.direction = .outgoing)
    (he : (⟨a, r.label, b⟩ : Edge) ∈ g.edges) :
    b ∈ traverse g a r := by
  unfold traverse
  rw [hd]
  exact List.mem_map.mpr ⟨⟨a, r.label, b⟩, List.mem_filter.mpr ⟨he, by simp⟩, rfl⟩

/-- An edge carrying the label of an incoming relationship declaration is
found when traversing that relationship from its destination node. -/
lemma mem_traverse_of_edge_in (g : BfoGraph) (a b : Nat) (r : RelDecl)
    (hd : r.direction = .incoming)
    (he : (⟨a, r.label, b⟩ : Edge) ∈ g.edges) :
    a ∈ traverse g b r := by
  unfold traverse
  rw [hd]
  exact List.mem_map.mpr ⟨⟨a, r.label, b⟩, List.mem_filter.mpr ⟨he, by simp⟩, rfl⟩

/-- C1 counterexample: the `inheres_in` declaration of
`SpecificallyDependentContinuant` carries cardinality zero-or-more, not
exactly-one, and a conforming instance graph contains a specifically
dependent continuant with zero `inheres_in` bearers. -/
theorem inheres_in_not_exactly_one :
    inheresInDecl ∈ relNamed .SpecificallyDependentContinuant "inheres_in" ∧
    inheresInDecl.cardinality ≠ .one ∧
    conforms gQualityZero = true ∧
    (traverse gQualityZero 0 inheresInDecl).length ≠ 1 := by
  decide

/-- C1 (amended): the `inheres_in` relationship declared on
`SpecificallyDependentContinuant` is outgoing to `IndependentContinuant`
with cardinality zero-or-more, so under the declared schema an instance may
bear any number of `inheres_in` edges — conforming graphs exist with zero
and with two bearers. -/
theorem inheres_in_zero_or_more :
    relNamed .SpecificallyDependentContinuant "inheres_in" = [inheresInDecl] ∧
    inheresInDecl.direction = .outgoing ∧
    inheresInDecl.target = .IndependentContinuant ∧
    inheresInDecl.cardinality = .zeroOrMore ∧
    (∀ n : Nat, cardAllows inheresInDecl.cardinality n = true) ∧
    conforms gQualityZero = true ∧
    (traverse gQualityZero 0 inheresInDecl).length = 0 ∧
    conforms gQualityTwo = true ∧
    (traverse gQualityTwo 0 inheresInDecl).length = 2 :=
  ⟨by decide, rfl, rfl, rfl, fun _ => rfl, by decide, by decide, by decide,
   by decide⟩

/-- C2: `Organism` is declared as a subclass of `Object` with the added
string field `species`, and its effective schema exposes `species` and the
inherited `part_of`, `has_part`, `participates_in` and `bearer_of`
relationships; a conforming instance graph exercises all four. -/
theorem organism_schema :
    parent .Organism = some .Object ∧
    (declaredProps .Organism).any
      (fun p => p.name == "species" && p.kind == .string) = true ∧
    (effPropNames .Organism).contains "species" = true ∧
    (["part_of", "has_part", "participates_in", "bearer_of"].all
      (fun n => (effRelNames .Organism).contains n)) = true ∧
    conforms gOrganism = true ∧
    1 ∈ traverse gOrganism 0 partOfDecl ∧
    0 ∈ traverse gOrganism 1 hasPartDecl ∧
    2 ∈ traverse gOrganism 0 participatesInDecl ∧
    3 ∈ traverse gOrganism 0 bearerOfDecl := by
  decide

/-- C3: evaluating `src/examples/biology_example.py` stops with a NameError
on `RelationshipFrom` at the first class statement (`Organism`), because
line 14 imports only StringProperty, IntegerProperty, FloatProperty and
RelationshipTo from neomodel, so no class of that module is ever defined. -/
theorem biology_module_name_error :
    runBiologyModule = .nameError "RelationshipFrom" ∧
    biologyImports.contains "RelationshipFrom" = false ∧
    biologyImports.contains "RelationshipTo" = true ∧
    biologyImports.contains "StringProperty" = true ∧
    biologyImports.contains "IntegerProperty" = true ∧
    biologyImports.contains "FloatProperty" = true ∧
    (biologyStmts.map (·.defines)).head? = some "Organism" ∧
    (biologyStmts.head?.elim false
      (fun s => s.reads.contains "RelationshipFrom")) = true := by
  decide

/-- C4 counterexample: the root `Entity` also sets `__abstract_node__ =
True` but is not among the twelve classes the claim lists as the exact set
of abstract types. -/
theorem entity_outside_spec_twelve :
    isAbstract .Entity = true ∧
    specAbstractTwelve.contains .Entity = false := by
  decide

/-- C4 (amended): exactly thirteen classes — the twelve the spec lists plus
the root `Entity` — are marked abstract; instantiation at the consumer
boundary fails with an abstract-instantiation error exactly on those, so
`Quality` is rejected while every concrete type such as `Object` and
`BodyTemperature` is accepted, and `conforms` rejects a graph holding an
abstract-typed node. -/
theorem abstract_types_thirteen :
    (∀ t : TypeName, isAbstract t = sourceAbstractThirteen.contains t) ∧
    instantiate .Quality = .error (.abstractInstantiation .Quality) ∧
    instantiate .Object = .ok .Object ∧
    instantiate .BodyTemperature = .ok .BodyTemperature ∧
    (∀ t : TypeName, (instantiate t).isOk = !(isAbstract t)) ∧
    conforms gAbstractQuality = false ∧
    conforms gBodyTemp = true :=
  ⟨by decide, rfl, rfl, rfl, by decide, by decide, by decide⟩

/-- C5: in the define-type operation modelled from the spec, declaring a
property or relationship whose name collides with an inherited one fails
synchronously with a SchemaDefinitionError, unless the new relationship
keeps the inherited shape and strictly narrows its cardinality, in which
case definition succeeds; strict narrowing only ever shrinks the set of
allowed edge counts. -/
theorem define_type_duplicate_check :
    (∀ (inhP : List PropDecl) (inhR : List RelDecl) (np : PropDecl),
        (inheritedNames inhP inhR).contains np.name = true →
        defineType inhP inhR [np] [] = .error (.schemaDefinition np.name)) ∧
    (∀ (inhP : List PropDecl) (inhR : List RelDecl) (nr o : RelDecl),
        inhR.find? (fun x => x.name == nr.name) = some o →
        ((shapeOk nr o && strictlyNarrows nr.cardinality o.cardinality) = false →
            defineType inhP inhR [] [nr] = .error (.schemaDefinition nr.name)) ∧
        ((shapeOk nr o && strictlyNarrows nr.cardinality o.cardinality) = true →
            (defineType inhP inhR [] [nr]).isOk = true)) ∧
    (∀ (c2 c : Cardinality) (n : Nat),
        strictlyNarrows c2 c = true → cardAllows c2 n = true →
        cardAllows c n = true) := by
  refine ⟨?_, ?_, ?_⟩
  · intro inhP inhR np h
    have h2 : np.name ∈ inheritedNames inhP inhR := by simpa using h
    simp [defineType, checkProps, h2]
  · intro inhP inhR nr o hfind
    constructor
    · intro hc
      simp [defineType, checkProps, checkRels, hfind, hc]
    · intro hc
      simp [defineType, checkProps, checkRels, hfind, hc, Except.isOk,
            Except.toBool]
  · intro c2 c n h1 h2
    revert h1 h2
    cases c2 <;> cases c <;> simp [strictlyNarrows, cardAllows] <;> omega

/-- Witness for C5: redeclaring the inherited property name `name` fails,
redeclaring `part_of` with a different edge label fails, and redeclaring
`part_of` with the same shape and the strictly narrower cardinality
zero-or-one succeeds. -/
theorem define_type_duplicate_check_witness :
    defineType (declaredProps .Entity) [] [⟨"name", .string, false⟩] [] =
      .error (.schemaDefinition "name") ∧
    defineType [] [partOfDecl] []
      [⟨"part_of", .outgoing, .Continuant, "LOCATED_IN", .zeroOrMore⟩] =
      .error (.schemaDefinition "part_of") ∧
    (defineType [] [partOfDecl] []
      [⟨"part_of", .outgoing, .Continuant, "PART_OF", .zeroOrOne⟩]).isOk =
      true :=
  ⟨define_type_duplicate_check.1 (declaredProps .Entity) []
     ⟨"name", .string, false⟩ (by decide),
   (define_type_duplicate_check.2.1 [] [partOfDecl]
     ⟨"part_of", .outgoing, .Continuant, "LOCATED_IN", .zeroOrMore⟩
     partOfDecl (by decide)).1 (by decide),
   (define_type_duplicate_check.2.1 [] [partOfDecl]
     ⟨"part_of", .outgoing, .Continuant, "PART_OF", .zeroOrOne⟩
     partOfDecl (by decide)).2 (by decide)⟩

/-- C6: the hierarchy is a simple tree rooted at `Entity` — every class
except `Entity` has exactly one parent, every ancestor chain reaches
`Entity`, no class redeclares an inherited relationship name with an
incompatibly narrowed cardinality, and the only common ancestor of a
Continuant subtype and an Occurrent subtype is `Entity` itself. -/
theorem hierarchy_simple_tree :
    (∀ t : TypeName, (parent t).isSome = !(t == .Entity)) ∧
    (∀ t : TypeName, (ancestors t).contains .Entity = true) ∧
    (∀ t : TypeName, ((declaredRels t).all fun r =>
        (strictAncestors t).all fun a => (declaredRels a).all fun r2 =>
          r2.name != r.name || r2.cardinality == r.cardinality ||
          strictlyNarrows r.cardinality r2.cardinality) = true) ∧
    (∀ u v : TypeName, (!(isDescendantOf u .Continuant) ||
        !(isDescendantOf v .Occurrent) ||
        (ancestors u).all fun a =>
          !((ancestors v).contains a) || a == .Entity) = true) := by
  decide

/-- C7: for every declared inverse relationship pair, both arms exist, the
two arms carry the same edge label with the forward arm outgoing and the
inverse arm incoming, and an edge created under that label is retrieved by
traversing the forward name from its source and the inverse name from its
destination, in any instance graph. -/
theorem inverse_pairs_round_trip :
    ∀ pp ∈ inversePairs,
      relNamed pp.1.1 pp.1.2 ≠ [] ∧ relNamed pp.2.1 pp.2.2 ≠ [] ∧
      ∀ r ∈ relNamed pp.1.1 pp.1.2, ∀ r2 ∈ relNamed pp.2.1 pp.2.2,
        r.label = r2.label ∧ r.direction = .outgoing ∧
        r2.direction = .incoming ∧
        ∀ (g : BfoGraph) (a b : Nat), (⟨a, r.label, b⟩ : Edge) ∈ g.edges →
          b ∈ traverse g a r ∧ a ∈ traverse g b r2 := by
  have hdec : ∀ pp ∈ inversePairs,
      relNamed pp.1.1 pp.1.2 ≠ [] ∧ relNamed pp.2.1 pp.2.2 ≠ [] ∧
      ∀ r ∈ relNamed pp.1.1 pp.1.2, ∀ r2 ∈ relNamed pp.2.1 pp.2.2,
        r.label = r2.label ∧ r.direction = .outgoing ∧
        r2.direction = .incoming := by decide
  intro pp hpp
  obtain ⟨h1, h2, h3⟩ := hdec pp hpp
  refine ⟨h1, h2, fun r hr r2 hr2 => ?_⟩
  obtain ⟨hl, hdo, hdi⟩ := h3 r hr r2 hr2
  refine ⟨hl, hdo, hdi, fun g a b he =>
    ⟨mem_traverse_of_edge_out g a b r hdo he, ?_⟩⟩
  have he2 : (⟨a, r2.label, b⟩ : Edge) ∈ g.edges := by rw [← hl]; exact he
  exact mem_traverse_of_edge_in g a b r2 hdi he2

/-- Witness for C7: in the two-object graph with a single PART_OF edge,
object 1 is reached from object 0 via `part_of` and object 0 is reached
from object 1 via `has_part`. -/
theorem inverse_pairs_round_trip_witness :
    1 ∈ traverse gPartPair 0 partOfDecl ∧
    0 ∈ traverse gPartPair 1 hasPartDecl :=
  ((inverse_pairs_round_trip ((.Continuant, "part_of"), (.Continuant, "has_part"))
      (by decide)).2.2 partOfDecl (by decide) hasPartDecl
      (by decide)).2.2.2 gPartPair 0 1 (by decide)

/-- C8: the class body of `Process` declares exactly the five relationships
has_participant, realizes, has_process_boundary, preceded_by and precedes,
with the stated directions and targets; has_participant shares the
PARTICIPATES_IN edge label with the `participates_in` declaration of
`IndependentContinuant`, and the effective schema of `Process` is exactly
these declarations on top of the ones inherited from `Occurrent`. -/
theorem process_declared_relationships :
    ((declaredRels .Process).map (·.name)) =
      ["has_participant", "realizes", "has_process_boundary", "preceded_by",
       "precedes"] ∧
    (relNamed .Process "has_participant").all
      (fun r => r.direction == .incoming && r.label == "PARTICIPATES_IN" &&
        r.target == .IndependentContinuant) = true ∧
    (relNamed .IndependentContinuant "participates_in").all
      (fun r => r.direction == .outgoing && r.label == "PARTICIPATES_IN" &&
        r.target == .Process) = true ∧
    (relNamed .Process "realizes").all
      (fun r => r.direction == .outgoing && r.target == .RealizableEntity) =
      true ∧
    (relNamed .Process "has_process_boundary").all
      (fun r => r.direction == .outgoing && r.target == .ProcessBoundary) =
      true ∧
    (relNamed .Process "precedes").all
      (fun r => r.direction == .outgoing && r.target == .Process) = true ∧
    (relNamed .Process "preceded_by").all
      (fun r => r.direction == .incoming && r.target == .Process) = true ∧
    effRels .Process = declaredRels .Process ++ effRels .Occurrent := by
  decide

/-- C9: the declared schema tolerates reflexive `precedes` and `part_of`
edges — a graph whose single process precedes itself and a graph whose
single object is part of itself both satisfy every cardinality and
target-type constraint. -/
theorem no_acyclicity_constraint :
    precedesDecl ∈ relNamed .Process "precedes" ∧
    (⟨0, "PRECEDES", 0⟩ : Edge) ∈ gPrecedesLoop.edges ∧
    0 ∈ traverse gPrecedesLoop 0 precedesDecl ∧
    0 ∈ traverse gPrecedesLoop 0 precededByDecl ∧
    conforms gPrecedesLoop = true ∧
    partOfDecl ∈ relNamed .Continuant "part_of" ∧
    (⟨0, "PART_OF", 0⟩ : Edge) ∈ gPartOfLoop.edges ∧
    0 ∈ traverse gPartOfLoop 0 partOfDecl ∧
    conforms gPartOfLoop = true := by
  decide

/-- C10: the root `Entity` itself sets the abstract flag — a thirteenth
abstract class beyond the twelve the spec lists — its instantiation is
rejected at the consumer boundary, and every concrete class is a strict
descendant of `Entity` carrying the inherited uid, name, description,
created_at and modified_at properties. -/
theorem entity_abstract_root :
    isAbstract .Entity = true ∧
    instantiate .Entity = .error (.abstractInstantiation .Entity) ∧
    specAbstractTwelve.contains .Entity = false ∧
    (∀ t : TypeName, isAbstract t = true ∨
      ((strictAncestors t).contains .Entity = true ∧
       (["uid", "name", "description", "created_at", "modified_at"].all
         (fun n => (effPropNames t).contains n)) = true)) :=
  ⟨rfl, rfl, by decide, by decide⟩

end NeomodelBfo
